import Mathlib

/-!
Verification of the invocation state machine of a durable-execution SDK.

The invocation state machine (journal replay, completions, suspensions,
side-effect retry engine) is exercised by the test files of the repository;
the machine itself is modelled here from the specification, faithful to its
words and checked against the literal message-level scenarios of the tests.
The HTTP generic handler, the promise-combinator dispatch and the promise
transformer are translated directly from the repository sources.
-/

namespace RestateCore

/-- The kind of a journal entry (wire-level message variants that are
journal entries). -/
inductive EntryKind where
  | input
  | output
  | getState
  | setState
  | clearState
  | clearAllState
  | getStateKeys
  | sleep
  | invokeCall
  | backgroundInvokeCall
  | awakeable
  | resolveAwakeable
  | rejectAwakeable
  | sideEffect
deriving DecidableEq, Repr

/-- The result attached to a journal entry.  `failure` carries the error
code, the message and whether the failure is terminal (a side-effect entry
can journal a non-terminal failure while a retry is pending).
`stateKeys` is the decoded payload of a GetStateKeys entry. -/
inductive EntryResult where
  | empty
  | value (v : String)
  | failure (code : Nat) (msg : String) (terminal : Bool)
  | notReady
  | stateKeys (ks : List String)
deriving DecidableEq, Repr

/-- A journal entry as the machine stores it: its kind and its result.
Used both for entries of the replay journal sent by the runtime and for
entries of the live journal. -/
structure Entry where
  kind : EntryKind
  result : EntryResult
deriving DecidableEq, Repr

/-- Wire messages exchanged with the runtime: the Start/Input prefix,
journal-entry messages, completions and acks inbound; entry messages,
suspension, output and end outbound. -/
inductive Message where
  | start (knownEntries : Nat) (partialState : Bool) (eagerState : List (String × String))
  | inputMsg (v : String)
  | entry (kind : EntryKind) (result : EntryResult)
  | completion (idx : Nat) (result : EntryResult)
  | ack (idx : Nat)
  | suspension (indices : List Nat)
  | outputMsg (result : EntryResult)
  | endMsg
deriving DecidableEq, Repr

/-- Protocol mode of the invocation. -/
inductive Mode where
  | bidi
  | requestResponse
deriving DecidableEq, Repr

/-- Error code used for internal/terminal user failures. -/
def INTERNAL_CODE : Nat := 13

/-- Error code of a journal mismatch. -/
def JOURNAL_MISMATCH_CODE : Nat := 32

/-- The terminal failure raised when a replayed journal entry does not match
the operation performed by the user code. -/
def journalMismatchResult : EntryResult :=
  .failure JOURNAL_MISMATCH_CODE "Journal mismatch: replayed entry does not match the operation performed by the user code" true

/-- Fatal failure of a malformed message stream. -/
def protocolViolationResult : EntryResult :=
  .failure 571 "Protocol violation" true

/-- An entry is completable (its result arrives later through a Completion)
or completed on append. -/
def isCompletable : EntryKind → Bool
  | .sleep => true
  | .getState => true
  | .getStateKeys => true
  | .invokeCall => true
  | .awakeable => true
  | .sideEffect => true
  | _ => false

/-- Look up a Completion message for journal index `idx` in the tail of the
message stream. -/
def findCompletion (idx : Nat) : List Message → Option EntryResult
  | [] => none
  | .completion i r :: rest => if i = idx then some r else findCompletion idx rest
  | _ :: rest => findCompletion idx rest

/-- Look up an Ack or a Completion for journal index `idx`: a side-effect
entry in bidi mode is settled by either. -/
def findAckOrCompletion (idx : Nat) : List Message → Bool
  | [] => false
  | .completion i _ :: rest => if i = idx then true else findAckOrCompletion idx rest
  | .ack i :: rest => if i = idx then true else findAckOrCompletion idx rest
  | _ :: rest => findAckOrCompletion idx rest

/-- Split the messages that follow the Start and Input prefix into the
replay journal entries (the leading entry messages) and the remaining
control messages (completions and acks). -/
def splitReplay : List Message → List Entry × List Message
  | .entry k r :: rest =>
      let p := splitReplay rest
      (⟨k, r⟩ :: p.1, p.2)
  | other => ([], other)

/-- Build the canonical input stream of one invocation: Start, Input, the
replay journal entries, then completion messages. -/
def mkStream (knownEntries : Nat) (v : String) (replay : List Entry)
    (comps : List (Nat × EntryResult)) : List Message :=
  .start knownEntries false [] :: .inputMsg v ::
    (replay.map fun e => .entry e.kind e.result) ++
    (comps.map fun c => .completion c.1 c.2)

/-! ## Generic sequential-operation runner

The user handler performs a fixed sequence of Context operations, awaiting
each in turn.  While replay entries remain, each operation is matched
against the next replay entry by kind; a kind mismatch is a fatal journal
mismatch, emitted as a terminal Output followed by End.  Once the replay
journal is exhausted, each operation appends and emits a new live entry;
a completable entry awaits its completion and a missing completion
suspends the invocation. -/

def runOpsAux (comps : List Message) : List EntryKind → List Entry → Nat → List Message
  | [], _, _ => [.outputMsg (.value "done"), .endMsg]
  | op :: ops, re :: rs, idx =>
      if re.kind = op then
        if re.result = .notReady && isCompletable op then
          match findCompletion idx comps with
          | some _ => runOpsAux comps ops rs (idx + 1)
          | none => [.suspension [idx]]
        else runOpsAux comps ops rs (idx + 1)
      else [.outputMsg journalMismatchResult, .endMsg]
  | op :: ops, [], idx =>
      if isCompletable op then
        .entry op .notReady ::
          (match findCompletion idx comps with
           | some _ => runOpsAux comps ops [] (idx + 1)
           | none => [.suspension [idx]])
      else .entry op .empty :: runOpsAux comps ops [] (idx + 1)

/-- Run a handler that performs the operations `ops` in order against the
message stream `msgs`. -/
def runOps (ops : List EntryKind) (msgs : List Message) : List Message :=
  match msgs with
  | .start _ _ _ :: .inputMsg _ :: rest =>
      let p := splitReplay rest
      runOpsAux p.2 ops p.1 1
  | _ => [.outputMsg protocolViolationResult, .endMsg]

/-! ## Parallel-sleeps runner

The user handler creates `n` sleeps at once and awaits them all
(Promise.all).  Each sleep call consumes the next replay entry (a kind
mismatch is fatal) or appends and emits a new Sleep entry.  A sleep is
settled when its replayed result is already settled or when a Completion
for its index is in the stream.  If every sleep is settled the handler
produces its output; otherwise the machine emits a single Suspension
listing the indices still NotReady. -/

def sleepsLoop (comps : List Message) : Nat → List Entry → Nat → Except Unit (List Message × List Nat)
  | 0, _, _ => .ok ([], [])
  | n + 1, re :: rs, idx =>
      if re.kind = .sleep then
        (sleepsLoop comps n rs (idx + 1)).map fun p =>
          if re.result ≠ .notReady || (findCompletion idx comps).isSome then p
          else (p.1, idx :: p.2)
      else .error ()
  | n + 1, [], idx =>
      (sleepsLoop comps n [] (idx + 1)).map fun p =>
        (.entry .sleep .notReady :: p.1,
         if (findCompletion idx comps).isSome then p.2 else idx :: p.2)

/-- The sleeps machine on the parsed stream: a mismatch closes with the
terminal journal-mismatch Output and End; a fully settled journal closes
with the Output and End; otherwise the machine suspends on the NotReady
indices. -/
def runSleepsCore (comps : List Message) (n : Nat) (replay : List Entry) : List Message :=
  match sleepsLoop comps n replay 1 with
  | .error _ => [.outputMsg journalMismatchResult, .endMsg]
  | .ok (em, []) => em ++ [.outputMsg (.value "Hello"), .endMsg]
  | .ok (em, i :: nr) => em ++ [.suspension (i :: nr)]

/-- Run a handler awaiting `n` parallel sleeps.  The mode does not alter
the behaviour of sleeping: an incomplete journal suspends in both modes. -/
def runSleeps (_mode : Mode) (n : Nat) (msgs : List Message) : List Message :=
  match msgs with
  | .start _ _ _ :: .inputMsg _ :: rest =>
      let p := splitReplay rest
      runSleepsCore p.2 n p.1
  | _ => [.outputMsg protocolViolationResult, .endMsg]

/-! ## Side-effect greeter runner

The user handler performs one side effect and returns the greeting built
from its result.  On replay the prior SideEffect entry is consumed without
executing the closure: a journaled value is delivered, a journaled terminal
failure is raised.  In the Processing phase the closure runs once; its
value (or terminal failure) is journaled as a SideEffect entry which, in
bidi mode, awaits an ack before the handler resumes. -/

/-- Outcome of one execution of a side-effect closure that is not retried. -/
inductive SEResult where
  | ok (v : String)
  | terminalErr (msg : String)
deriving DecidableEq, Repr

/-- The string the handler greets with for a journaled side-effect result:
a missing value deserializes to the undefined value. -/
def seDelivered : EntryResult → String
  | .value v => v
  | _ => "undefined"

/-- The side-effect greeter machine on the parsed stream.  On replay the
prior SideEffect entry is consumed without executing the closure; in the
Processing phase the closure runs once, its outcome is journaled and, in
bidi mode only, the entry awaits an ack before the handler resumes. -/
def runSEGCore (comps : List Message) (mode : Mode) (fn : SEResult) :
    List Entry → List Message × Nat
  | re :: _ =>
      if re.kind = .sideEffect then
        match re.result with
        | .failure c m true => ([.outputMsg (.failure c m true), .endMsg], 0)
        | r => ([.outputMsg (.value ("Hello " ++ seDelivered r)), .endMsg], 0)
      else ([.outputMsg journalMismatchResult, .endMsg], 0)
  | [] =>
      match fn with
      | .ok v =>
          if mode = .bidi && !(findAckOrCompletion 1 comps) then
            ([.entry .sideEffect (.value v), .suspension [1]], 1)
          else
            ([.entry .sideEffect (.value v),
              .outputMsg (.value ("Hello " ++ v)), .endMsg], 1)
      | .terminalErr m =>
          if mode = .bidi && !(findAckOrCompletion 1 comps) then
            ([.entry .sideEffect (.failure INTERNAL_CODE m true), .suspension [1]], 1)
          else
            ([.entry .sideEffect (.failure INTERNAL_CODE m true),
              .outputMsg (.failure INTERNAL_CODE m true), .endMsg], 1)

/-- Run the side-effect greeter.  Returns the emitted messages and the
number of times the side-effect closure was executed. -/
def runSEG (mode : Mode) (fn : SEResult) (msgs : List Message) : List Message × Nat :=
  match msgs with
  | .start _ _ _ :: .inputMsg _ :: rest =>
      let p := splitReplay rest
      runSEGCore p.2 mode fn p.1
  | _ => ([.outputMsg protocolViolationResult, .endMsg], 0)

/-! ## Side-effect retry engine

A side-effect closure may finish with a value, a terminal error or a
retryable (non-terminal) error.  A retryable error is journaled on the
SideEffect entry as a non-terminal failure, a durable retry is scheduled
as a Sleep entry whose delay follows the retry policy, and the closure is
re-executed on wakeup.  A terminal error, or a retryable error when the
retries are exhausted, is journaled as a terminal failure and surfaces as
the invocation result. -/

/-- Outcome of one attempt of a retried side-effect closure. -/
inductive SEAttempt where
  | ok (v : String)
  | terminalErr (msg : String)
  | retryable (msg : String)
deriving DecidableEq, Repr

/-- Retry policy of a side effect: maximum number of attempts, initial and
maximal delay, and whether the backoff is fixed (else exponential). -/
structure RetrySettings where
  maxRetries : Nat
  initialDelayMs : Nat
  maxDelayMs : Nat
  fixedDelay : Bool
deriving DecidableEq, Repr

/-- The journaled sleep delay before re-executing attempt `attempt + 1`. -/
def retryDelay (s : RetrySettings) (attempt : Nat) : Nat :=
  if s.fixedDelay then min s.maxDelayMs s.initialDelayMs
  else min s.maxDelayMs (s.initialDelayMs * 2 ^ attempt)

/-- A journaled SideEffect entry. -/
def seEntry (r : EntryResult) : Entry := ⟨.sideEffect, r⟩

/-- A journaled Sleep entry scheduling a durable retry after `d` ms. -/
def sleepEntry (d : Nat) : Entry := ⟨.sleep, .value (toString d)⟩

/-- The retry loop: `fn` maps the attempt number to its outcome, `fuel` is
the number of retries still allowed after the current attempt. -/
def runRetryAux (fn : Nat → SEAttempt) (s : RetrySettings) : Nat → Nat → List Entry × EntryResult
  | attempt, fuel =>
      match fn attempt with
      | .ok v => ([seEntry (.value v)], .value v)
      | .terminalErr m =>
          ([seEntry (.failure INTERNAL_CODE m true)], .failure INTERNAL_CODE m true)
      | .retryable m =>
          match fuel with
          | 0 => ([seEntry (.failure INTERNAL_CODE m true)], .failure INTERNAL_CODE m true)
          | f + 1 =>
              let rest := runRetryAux fn s (attempt + 1) f
              (seEntry (.failure INTERNAL_CODE m false) :: sleepEntry (retryDelay s attempt) :: rest.1,
               rest.2)

/-- Run a side effect with retry policy `s` in the Processing phase:
the journal suffix it appends and the result it surfaces. -/
def runRetry (fn : Nat → SEAttempt) (s : RetrySettings) : List Entry × EntryResult :=
  runRetryAux fn s 0 (s.maxRetries - 1)

/-- The journal footprint of `k` failed attempts starting at attempt `a`:
each failed attempt journals its non-terminal failure on the SideEffect
entry and a Sleep entry scheduling the durable retry, so between the
entries of consecutive attempts only Sleep entries appear. -/
def retryTrace (msgs : Nat → String) (s : RetrySettings) : Nat → Nat → List Entry
  | _, 0 => []
  | a, k + 1 =>
      seEntry (.failure INTERNAL_CODE (msgs a) false) :: sleepEntry (retryDelay s a) ::
        retryTrace msgs s (a + 1) k

/-- Whether a journal entry records a terminal failure. -/
def isTerminalFailureEntry (e : Entry) : Bool :=
  match e.result with
  | .failure _ _ terminal => terminal
  | _ => false

/-! ## Reentrancy guard of the side-effect runner

While a side-effect closure runs, every Context operation except the
read-only deterministic accessors is forbidden; each forbidden operation
raises a terminal failure with a fixed message naming the operation.  The
side-effect runner journals that terminal failure on the SideEffect entry
and the invocation ends with an Output carrying it, then End. -/

/-- The Context operations that are forbidden inside a side effect. -/
inductive ForbiddenOp where
  | getStateOp
  | setStateOp
  | clearStateOp
  | sleepOp
  | sideEffectOp
  | oneWayCallOp
  | awakeableOp
  | resolveAwakeableOp
  | rejectAwakeableOp
deriving DecidableEq, Repr

/-- The operation name as it appears in the failure message. -/
def ForbiddenOp.opName : ForbiddenOp → String
  | .getStateOp => "get state"
  | .setStateOp => "set state"
  | .clearStateOp => "clear state"
  | .sleepOp => "sleep"
  | .sideEffectOp => "sideEffect"
  | .oneWayCallOp => "oneWayCall"
  | .awakeableOp => "awakeable"
  | .resolveAwakeableOp => "resolveAwakeable"
  | .rejectAwakeableOp => "rejectAwakeable"

/-- The fixed terminal-failure message of a forbidden operation performed
inside a side effect. -/
def forbiddenMsg (op : ForbiddenOp) : String :=
  "You cannot do " ++ op.opName ++ " calls from within a side effect."

/-- All forbidden operations. -/
def allForbiddenOps : List ForbiddenOp :=
  [.getStateOp, .setStateOp, .clearStateOp, .sleepOp, .sideEffectOp,
   .oneWayCallOp, .awakeableOp, .resolveAwakeableOp, .rejectAwakeableOp]

/-- The guard every Context operation consults: inside a side effect the
operation raises the fixed terminal failure naming it. -/
def sideEffectFlagGuard (insideSideEffect : Bool) (op : ForbiddenOp) :
    Except EntryResult Unit :=
  if insideSideEffect then .error (.failure INTERNAL_CODE (forbiddenMsg op) true)
  else .ok ()

/-- Run a handler whose side-effect closure performs the forbidden
operation `op` in the Processing phase (ack present): the guard raises the
terminal failure, the side-effect runner journals it on the SideEffect
entry and the invocation ends with Output carrying it, then End. -/
def runForbidden (op : ForbiddenOp) : List Message :=
  (runSEG .bidi
    (match sideEffectFlagGuard true op with
     | .error (.failure _ m _) => .terminalErr m
     | _ => .ok "unreachable")
    [.start 1 false [], .inputMsg "Till", .ack 1]).1

/-! ## State-keys runner

The user handler returns the comma-joined list of its state keys.  In the
Processing phase a complete-state invocation answers from the local
eager-state map, emitting a GetStateKeys entry already carrying the keys
and awaiting nothing; a partial-state invocation emits the entry
unresolved and awaits a Completion, suspending when none arrives.  During
replay the prior GetStateKeys entry is consumed and its keys returned. -/

/-- Join state keys with commas, as the test handler builds its greeting. -/
def joinComma : List String → String
  | [] => ""
  | [k] => k
  | k :: rest => k ++ "," ++ joinComma rest

/-- Run the state-keys handler against a message stream. -/
def runListKeys (msgs : List Message) : List Message :=
  match msgs with
  | .start _ partialState eagerState :: .inputMsg _ :: rest =>
      let p := splitReplay rest
      match p.1 with
      | re :: _ =>
          if re.kind = .getStateKeys then
            match re.result with
            | .stateKeys ks => [.outputMsg (.value (joinComma ks)), .endMsg]
            | .notReady =>
                match findCompletion 1 p.2 with
                | some (.stateKeys ks) => [.outputMsg (.value (joinComma ks)), .endMsg]
                | _ => [.suspension [1]]
            | _ => [.outputMsg protocolViolationResult, .endMsg]
          else [.outputMsg journalMismatchResult, .endMsg]
      | [] =>
          if partialState then
            .entry .getStateKeys .notReady ::
              (match findCompletion 1 p.2 with
               | some (.stateKeys ks) => [.outputMsg (.value (joinComma ks)), .endMsg]
               | _ => [.suspension [1]])
          else
            [.entry .getStateKeys (.stateKeys (eagerState.map Prod.fst)),
             .outputMsg (.value (joinComma (eagerState.map Prod.fst))), .endMsg]
  | _ => [.outputMsg protocolViolationResult, .endMsg]

/-! ## Request-Response closing shapes -/

/-- Whether a message is a Suspension. -/
def isSuspensionMsg : Message → Bool
  | .suspension _ => true
  | _ => false

/-- Whether a message is a journal-entry message. -/
def isEntryMsg : Message → Bool
  | .entry _ _ => true
  | _ => false

/-- The emitted sequence closes with an Output followed by End. -/
def closedByOutput (xs : List Message) : Bool :=
  match xs.reverse with
  | .endMsg :: .outputMsg _ :: _ => true
  | _ => false

/-- The emitted sequence holds a Suspension message. -/
def hasSuspension (xs : List Message) : Bool :=
  xs.any isSuspensionMsg

/-- The well-formed endings of a Request-Response invocation: either the
journal closes (an Output, then End, with no Suspension emitted), or the
handler is blocked and the sequence ends with a single Suspension carrying
a nonempty set of blocked indices, all earlier messages being journal
entries. -/
def goodRREnding (xs : List Message) : Prop :=
  (∃ ys r, xs = ys ++ [.outputMsg r, .endMsg] ∧ ∀ m ∈ ys, isSuspensionMsg m = false) ∨
  (∃ ys ixs, ixs ≠ [] ∧ xs = ys ++ [.suspension ixs] ∧ ∀ m ∈ ys, isEntryMsg m = true)

end RestateCore

namespace GenericHandlerModel

/-- A header value: a single string or an array of strings (the code treats
an array as an absent header where a single string is required). -/
inductive HeaderValue where
  | str (s : String)
  | strs (ss : List String)
deriving DecidableEq, Repr

/-- An incoming request as GenericHandler.handle receives it.  The URL is
kept as its path segments; the body is the raw byte buffer, absent when
null. -/
structure GHRequest where
  url : List String
  headers : List (String × HeaderValue)
  body : Option (List Nat)

/-- The body of an outgoing response.  `errorJson m` stands for the buffer
holding the JSON serialization of the object whose single field `message`
is `m`, exactly as toErrorResponse builds it. -/
inductive ResponseBody where
  | errorJson (message : String)
  | invokeResult (bytes : List Nat)
  | discoveryJson
deriving DecidableEq, Repr

/-- An outgoing response. -/
structure GHResponse where
  headers : List (String × String)
  statusCode : Nat
  body : ResponseBody
deriving DecidableEq, Repr

/-- Outcome of validating the request signature against the key set. -/
inductive SigOutcome where
  | valid
  | invalid (err : String)
  | thrown (msg : String)
deriving DecidableEq, Repr

/-- Outcome of decoding the journal, running the state machine and reading
the connection result: the response bytes, or the error a failing core
throws. -/
inductive InvokeOutcome where
  | success (result : List Nat)
  | thrown (msg : String)
deriving DecidableEq, Repr

/-- A component handler found for the URL; its invocation outcome abstracts
the decoder, the state machine and the connection. -/
structure ComponentHandlerModel where
  invokeOutcome : InvokeOutcome

/-- A registered component. -/
structure ComponentModel where
  handlerMatching : String → Option ComponentHandlerModel

/-- The endpoint the handler serves: whether a request-identity key set is
configured, the signature validator, and the component registry. -/
structure EndpointModel where
  keySet : Bool
  validateSignature : List String → List (String × HeaderValue) → SigOutcome
  componentByName : String → Option ComponentModel

/-- The value of the x-restate-server header identifying the SDK build. -/
def X_RESTATE_SERVER : String := "restate-sdk-typescript"

/-- toErrorResponse of GenericHandler: a plain-text response whose body is
the JSON object with the single field message. -/
def toErrorResponse (code : Nat) (message : String) : GHResponse :=
  { headers := [("content-type", "text/plain"), ("x-restate-server", X_RESTATE_SERVER)],
    statusCode := code,
    body := .errorJson message }

/-- A parsed URL path. -/
inductive ParsedPath where
  | invokePath (componentName handlerName : String)
  | discovery
deriving DecidableEq, Repr

/-- Modelled from the spec: parseUrlComponents (types/components is not
under src/).  Two path shapes are recognized, a path ending in
invoke/serviceName/handlerName and a path ending in discover; any other
path is unknown. -/
def parseUrlComponents (segs : List String) : Option ParsedPath :=
  match segs.reverse with
  | "discover" :: _ => some .discovery
  | hdl :: svc :: "invoke" :: _ => some (.invokePath svc hdl)
  | _ => none

/-- Modelled from the spec: the service protocol version negotiation
(types/protocol is not under src/).  The protocol version is carried in
the content-type header; the endpoint supports the published version
application/vnd.restate.invocation.v1. -/
def isServiceProtocolVersionSupported (contentType : String) : Bool :=
  contentType = "application/vnd.restate.invocation.v1"

/-- Modelled from the spec: the discovery version negotiation via the
accept header; only the v1 JSON discovery format is implemented. -/
def isDiscoveryVersionSupported (accept : String) : Bool :=
  accept = "application/vnd.restate.endpointmanifest.v1+json"

/-- Case-sensitive header lookup. -/
def lookupHeader (hs : List (String × HeaderValue)) (name : String) : Option HeaderValue :=
  (hs.find? fun p => p.1 = name).map Prod.snd

/-- validateConnectionSignature of GenericHandler: no key set means no
validation; an invalid signature or a validator error yields the 401
response. -/
def validateConnectionSignature (ep : EndpointModel) (path : List String)
    (headers : List (String × HeaderValue)) : Option GHResponse :=
  if ep.keySet then
    match ep.validateSignature path headers with
    | .valid => none
    | .invalid _ => some (toErrorResponse 401 "Unauthorized")
    | .thrown _ => some (toErrorResponse 401 "Unauthorized")
  else none

/-- handleInvoke of GenericHandler: a successful core run returns 200 with
the emitted bytes and the negotiated content-type; any failure the core
throws is caught and becomes the 500 error response. -/
def handleInvoke (h : ComponentHandlerModel) (contentType : String) : GHResponse :=
  match h.invokeOutcome with
  | .success r =>
      { headers := [("content-type", contentType), ("x-restate-server", X_RESTATE_SERVER)],
        statusCode := 200,
        body := .invokeResult r }
  | .thrown m => toErrorResponse 500 m

/-- handleDiscovery of GenericHandler: a missing or unsupported accept
header is a 415; otherwise the JSON discovery document is returned. -/
def handleDiscovery (acceptValue : Option HeaderValue) : GHResponse :=
  match acceptValue with
  | some (.str a) =>
      if isDiscoveryVersionSupported a then
        { headers := [("content-type", a), ("x-restate-server", X_RESTATE_SERVER)],
          statusCode := 200,
          body := .discoveryJson }
      else toErrorResponse 415 "Unsupported service discovery protocol version"
  | _ => toErrorResponse 415 "Missing accept header"

/-- GenericHandler.handle: signature validation, then path routing, then
the content-type and protocol-version checks, then component and handler
lookup, the body guard, and finally the invocation. -/
def handle (ep : EndpointModel) (req : GHRequest) : GHResponse :=
  match validateConnectionSignature ep req.url req.headers with
  | some err => err
  | none =>
      match parseUrlComponents req.url with
      | none => toErrorResponse 404 "Invalid path"
      | some .discovery => handleDiscovery (lookupHeader req.headers "accept")
      | some (.invokePath comp hdl) =>
          match lookupHeader req.headers "content-type" with
          | some (.str ct) =>
              if isServiceProtocolVersionSupported ct then
                match ep.componentByName comp with
                | none => toErrorResponse 404 "No service found for URL"
                | some c =>
                    match c.handlerMatching hdl with
                    | none => toErrorResponse 404 "No service found for URL"
                    | some h =>
                        match req.body with
                        | none => toErrorResponse 400 "The incoming message body was null"
                        | some _ => handleInvoke h ct
              else toErrorResponse 415 "Unsupported service protocol version"
          | _ => toErrorResponse 415 "Missing content-type header"

/-- The content-type header is missing or names an unsupported protocol
version. -/
def contentTypeBad (hs : List (String × HeaderValue)) : Bool :=
  match lookupHeader hs "content-type" with
  | some (.str ct) => !(isServiceProtocolVersionSupported ct)
  | _ => true

/-- The signature gate lets the request through: no key set is configured,
or the validator accepts it. -/
def sigPasses (ep : EndpointModel) (req : GHRequest) : Prop :=
  validateConnectionSignature ep req.url req.headers = none

end GenericHandlerModel

namespace CombineablePromiseModel

/-- The Restate context a combineable promise carries in its
__restate_context field, identified abstractly. -/
structure CtxRef where
  ref : Nat
deriving DecidableEq, Repr

/-- A combineable promise: the value the combinators inspect is its
attached context. -/
structure CPromise where
  ctx : CtxRef
deriving DecidableEq, Repr

/-- The four promise combinators. -/
inductive CombinatorKind where
  | allK
  | raceK
  | anyK
  | allSettledK
deriving DecidableEq, Repr

/-- What a combinator call builds: either the native Promise combinator
applied to the given array (no Restate involvement), or the journal-aware
aggregator created through the context of the first element. -/
inductive CombineResult where
  | native (k : CombinatorKind) (values : List CPromise)
  | createCombinator (ctx : CtxRef) (k : CombinatorKind) (values : List CPromise)
deriving DecidableEq, Repr

/-- CombineablePromise.all: an empty array goes straight to the native
Promise.all; otherwise the combinator aggregator is created through the
context of the first promise. -/
def combineAll (values : List CPromise) : CombineResult :=
  match values with
  | [] => .native .allK values
  | v :: _ => .createCombinator v.ctx .allK values

/-- CombineablePromise.race. -/
def combineRace (values : List CPromise) : CombineResult :=
  match values with
  | [] => .native .raceK values
  | v :: _ => .createCombinator v.ctx .raceK values

/-- CombineablePromise.any. -/
def combineAny (values : List CPromise) : CombineResult :=
  match values with
  | [] => .native .anyK values
  | v :: _ => .createCombinator v.ctx .anyK values

/-- CombineablePromise.allSettled. -/
def combineAllSettled (values : List CPromise) : CombineResult :=
  match values with
  | [] => .native .allSettledK values
  | v :: _ => .createCombinator v.ctx .allSettledK values

/-- Whether the result consults a Restate context (and creates the
combinator aggregator). -/
def consultsContext : CombineResult → Bool
  | .native _ _ => false
  | .createCombinator _ _ _ => true

/-- How a native Promise combinator settles on an empty array. -/
inductive NativeEmptyOutcome where
  | resolvesEmptyArray
  | neverSettles
  | rejectsAggregateError
deriving DecidableEq, Repr

/-- Modelled from the ECMAScript specification of the native combinators
the code defers to: Promise.all([]) resolves with the empty array,
Promise.race([]) never settles, Promise.any([]) rejects with an
AggregateError, Promise.allSettled([]) resolves with the empty array. -/
def nativeEmptyBehavior : CombinatorKind → NativeEmptyOutcome
  | .allK => .resolvesEmptyArray
  | .raceK => .neverSettles
  | .anyK => .rejectsAggregateError
  | .allSettledK => .resolvesEmptyArray

end CombineablePromiseModel

namespace PromiseUtils

/-- The settled result a promise-method call yields to its awaiter:
the original value passed through untouched (no fulfilled callback was
registered on that path), the value a registered callback produced, or a
propagated rejection. -/
inductive SettledResult (α γ : Type) where
  | passthrough (v : α)
  | handled (g : γ)
  | rejected (e : String)
deriving DecidableEq, Repr

/-- The semantics of Promise.prototype.then on a settled promise:
a fulfilled value goes to the fulfilled callback when present and passes
through otherwise; a rejection goes to the rejected callback when present
and propagates otherwise. -/
def jsThen {α γ : Type} (p : Except String α) (onf : Option (α → γ))
    (onr : Option (String → γ)) : SettledResult α γ :=
  match p, onf, onr with
  | .ok v, some f, _ => .handled (f v)
  | .ok v, none, _ => .passthrough v
  | .error e, _, some h => .handled (h e)
  | .error e, _, none => .rejected e

/-- The wrapper transformIt returns: a promise-like object whose three
methods close over the underlying promise and the transform. -/
structure TransformedPromise (α β : Type) : Type 1 where
  thenFn : {γ : Type} → Option (β → γ) → Option (String → γ) → SettledResult α γ
  catchFn : {γ : Type} → Option (String → γ) → SettledResult α γ
  finallyFn : SettledResult α β

/-- transformIt: the then method composes the transform before a present
fulfilled callback and otherwise forwards to the underlying promise with
no fulfilled callback; the catch method is bound directly to the
underlying promise; the finally method chains the transform first. -/
def transformIt {α β : Type} (promise : Except String α)
    (transformOnfulfilled : α → β) : TransformedPromise α β where
  thenFn onfulfilled onrejected :=
    match onfulfilled with
    | some f => jsThen promise (some fun t => f (transformOnfulfilled t)) onrejected
    | none => jsThen promise none onrejected
  catchFn onrejected := jsThen promise none onrejected
  finallyFn := jsThen promise (some transformOnfulfilled) none

end PromiseUtils

/-! ## Concrete fixtures used to instantiate the theorems -/

namespace RestateCore

/-- A closure that fails with a retryable error on its first attempt and
returns the value 1 on its second, as in the retry test. -/
def retryOnceFn : Nat → SEAttempt
  | 0 => .retryable "error"
  | _ => .ok "1"

/-- The messages of `retryOnceFn`. -/
def retryOnceMsgs : Nat → String := fun _ => "error"

/-- A closure that always fails with a retryable error. -/
def alwaysRetryFn : Nat → SEAttempt := fun _ => .retryable "Failing user code"

/-- The fixed-delay policy of the retry test: at most two attempts. -/
def fixedTwoRetries : RetrySettings :=
  { maxRetries := 2, initialDelayMs := 1, maxDelayMs := 1, fixedDelay := true }

end RestateCore

namespace GenericHandlerModel

/-- An endpoint with no key set and an empty registry. -/
def epPlain : EndpointModel :=
  { keySet := false
    validateSignature := fun _ _ => .valid
    componentByName := fun _ => none }

/-- An endpoint whose configured key set rejects every request. -/
def epRejecting : EndpointModel :=
  { keySet := true
    validateSignature := fun _ _ => .invalid "signature did not validate"
    componentByName := fun _ => none }

/-- A handler whose core invocation throws. -/
def throwingHandler : ComponentHandlerModel :=
  { invokeOutcome := .thrown "boom" }

/-- A component exposing the throwing handler under the name Greet. -/
def compGreeter : ComponentModel :=
  { handlerMatching := fun h => if h = "Greet" then some throwingHandler else none }

/-- An endpoint exposing `compGreeter` under the name Svc. -/
def epGreeter : EndpointModel :=
  { keySet := false
    validateSignature := fun _ _ => .valid
    componentByName := fun c => if c = "Svc" then some compGreeter else none }

/-- A request to an unknown path. -/
def reqUnknownPath : GHRequest :=
  { url := ["foo"], headers := [], body := none }

/-- A request to an invocation path without a content-type header. -/
def reqNoContentType : GHRequest :=
  { url := ["invoke", "Svc", "Greet"], headers := [], body := none }

/-- A well-formed invocation request for `epGreeter`. -/
def reqInvokeGreet : GHRequest :=
  { url := ["invoke", "Svc", "Greet"]
    headers := [("content-type", .str "application/vnd.restate.invocation.v1")]
    body := some [0] }

end GenericHandlerModel

open RestateCore GenericHandlerModel CombineablePromiseModel PromiseUtils

/-! ## Theorems -/

/-- C4: for the input stream Start, Input Till, Completion 4 with the empty
payload, Completion 2 with the empty payload, a handler awaiting five
parallel sleeps emits exactly five Sleep entries (indices 1 through 5 in
call order) followed by a single Suspension listing exactly the indices of
the entries still NotReady, namely 1, 3 and 5. -/
theorem many_parallel_sleeps_scenario :
    runSleeps .bidi 5
      [.start 1 false [], .inputMsg "Till", .completion 4 .empty, .completion 2 .empty] =
      [.entry .sleep .notReady, .entry .sleep .notReady, .entry .sleep .notReady,
       .entry .sleep .notReady, .entry .sleep .notReady, .suspension [1, 3, 5]] := by
  decide

/-- C5: for the input stream Start with two known entries, Input Till and a
replayed SideEffect entry holding the value Francesco, the side-effect
greeter delivers the journaled value without re-executing the closure
(execution count 0) and emits exactly Output Hello Francesco followed by
End. -/
theorem side_effect_replay_scenario :
    runSEG .bidi (.ok "Francesco")
      [.start 2 false [], .inputMsg "Till", .entry .sideEffect (.value "Francesco")] =
      ([.outputMsg (.value "Hello Francesco"), .endMsg], 0) := by
  decide

/-- C3: every Context operation performed while a side-effect closure runs
(get state, set state, clear state, sleep, nested side effect, one-way
call, awakeable, resolveAwakeable, rejectAwakeable) raises a terminal
failure with the fixed message naming the operation, the invocation ends
with an Output carrying that terminal failure followed by End, and the
nine messages are pairwise distinct. -/
theorem forbidden_ops_inside_side_effect :
    (∀ op : ForbiddenOp,
      runForbidden op =
        [.entry .sideEffect (.failure INTERNAL_CODE (forbiddenMsg op) true),
         .outputMsg (.failure INTERNAL_CODE (forbiddenMsg op) true), .endMsg] ∧
      forbiddenMsg op = "You cannot do " ++ op.opName ++ " calls from within a side effect.") ∧
    (allForbiddenOps.map forbiddenMsg).Nodup := by
  refine ⟨fun op => ⟨rfl, rfl⟩, ?_⟩
  decide

/-- C9: each CombineablePromise combinator applied to the empty array is
exactly the corresponding native Promise combinator applied to that empty
array, consulting no Restate context and creating no combinator
aggregator; the native combinators settle on the empty array as
documented (all resolves with the empty array, race never settles, any
rejects with an AggregateError, allSettled resolves with the empty
array). -/
theorem combinators_empty_array_native :
    combineAll [] = .native .allK [] ∧
    combineRace [] = .native .raceK [] ∧
    combineAny [] = .native .anyK [] ∧
    combineAllSettled [] = .native .allSettledK [] ∧
    consultsContext (combineAll []) = false ∧
    consultsContext (combineRace []) = false ∧
    consultsContext (combineAny []) = false ∧
    consultsContext (combineAllSettled []) = false ∧
    nativeEmptyBehavior .allK = .resolvesEmptyArray ∧
    nativeEmptyBehavior .raceK = .neverSettles ∧
    nativeEmptyBehavior .anyK = .rejectsAggregateError ∧
    nativeEmptyBehavior .allSettledK = .resolvesEmptyArray := by
  decide

/-- C10: for a promise fulfilling with `v` and a transform `tf`, the
wrapper transformIt builds applies the transform only on the
fulfilled-callback path: then with a fulfilled callback invokes it with
the transformed value, finally chains through the transformed value, but
then with no fulfilled callback and catch yield the original untransformed
value, catch being bound directly to the underlying promise. -/
theorem transform_it_callback_paths {α β γ : Type} (v : α) (tf : α → β)
    (onf : β → γ) (onr : Option (String → γ)) (h : String → γ) :
    (transformIt (Except.ok v) tf).thenFn (some onf) onr = .handled (onf (tf v)) ∧
    (transformIt (Except.ok v) tf).thenFn none (some h) = .passthrough v ∧
    (transformIt (Except.ok v) tf).catchFn (some h) = .passthrough v ∧
    (transformIt (Except.ok v) tf).finallyFn = .handled (tf v) :=
  ⟨rfl, rfl, rfl, rfl⟩

/-- C6 counterexample: in Request-Response mode the sleep greeter driven by
Start and Input alone emits a Sleep entry and then a Suspension, so the
emitted sequence of this invocation does not end with an Output (nor with
a SideEffect failure followed by an Output failure). -/
theorem rr_mode_ending_counterexample :
    runSleeps .requestResponse 1 [.start 1 false [], .inputMsg "Till"] =
      [.entry .sleep .notReady, .suspension [1]] ∧
    closedByOutput (runSleeps .requestResponse 1 [.start 1 false [], .inputMsg "Till"]) = false ∧
    hasSuspension (runSleeps .requestResponse 1 [.start 1 false [], .inputMsg "Till"]) = true := by
  decide

/-- C7: a stateKeys call in the Processing phase of a complete-state
invocation emits a GetStateKeys entry already carrying the keys of the
local eager-state map and returns them without consulting the runtime; in
a partial-state invocation it emits the entry unresolved and awaits a
Completion, suspending when none arrives; during replay the prior
GetStateKeys entry is consumed and its keys returned. -/
theorem state_keys_modes (eager : List (String × String)) (cks rks : List String) :
    runListKeys [.start 1 false eager, .inputMsg ""] =
      [.entry .getStateKeys (.stateKeys (eager.map Prod.fst)),
       .outputMsg (.value (joinComma (eager.map Prod.fst))), .endMsg] ∧
    runListKeys [.start 1 true eager, .inputMsg "", .completion 1 (.stateKeys cks)] =
      [.entry .getStateKeys .notReady, .outputMsg (.value (joinComma cks)), .endMsg] ∧
    runListKeys [.start 1 true eager, .inputMsg ""] =
      [.entry .getStateKeys .notReady, .suspension [1]] ∧
    runListKeys [.start 1 true eager, .inputMsg "", .entry .getStateKeys (.stateKeys rks)] =
      [.outputMsg (.value (joinComma rks)), .endMsg] :=
  ⟨rfl, rfl, rfl, rfl⟩

/-- Splitting the canonical stream recovers the replay journal and the
completion messages. -/
theorem splitReplay_canonical (replay : List Entry) (comps : List (Nat × EntryResult)) :
    splitReplay ((replay.map fun e => .entry e.kind e.result) ++
        (comps.map fun c => .completion c.1 c.2)) =
      (replay, comps.map fun c => .completion c.1 c.2) := by
  induction replay with
  | nil => cases comps <;> rfl
  | cons e es ih => simp [splitReplay, ih]

/-- While replay entries match the performed operations by kind and are
settled, the runner consumes them without emitting; at the first kind
mismatch it emits the terminal journal-mismatch Output and End. -/
theorem runOpsAux_mismatch (cs : List Message) {pre : List Entry} {opsPre : List EntryKind}
    (hagree : List.Forall₂
      (fun (r : Entry) (o : EntryKind) => r.kind = o ∧ r.result ≠ .notReady) pre opsPre)
    (re : Entry) (op : EntryKind) (rs : List Entry) (ops2 : List EntryKind)
    (hmis : re.kind ≠ op) :
    ∀ idx, runOpsAux cs (opsPre ++ op :: ops2) (pre ++ re :: rs) idx =
      [.outputMsg journalMismatchResult, .endMsg] := by
  induction hagree with
  | nil => intro idx; simp [runOpsAux, hmis]
  | cons h _ ih =>
      intro idx
      simp only [List.cons_append, runOpsAux]
      rw [if_pos h.1]
      simp only [h.2, decide_eq_true_eq, decide_eq_false_iff_not, not_false_eq_true,
        Bool.false_and, Bool.if_false_left]
      simp [h.2]
      exact ih (idx + 1)

/-- C1: in the Replaying phase, when the user performs a Context operation
whose kind does not equal the kind of the next replay journal entry, the
invocation raises the journal-mismatch failure, fatal and terminal: the
emitted sequence is exactly the terminal journal-mismatch Output followed
by End, and in particular the first emitted message is that terminal
journal-mismatch failure. -/
theorem replaying_kind_mismatch_is_fatal (k : Nat) (v : String)
    (pre : List Entry) (opsPre : List EntryKind) (re : Entry) (op : EntryKind)
    (rs : List Entry) (ops2 : List EntryKind) (comps : List (Nat × EntryResult))
    (hagree : List.Forall₂
      (fun (r : Entry) (o : EntryKind) => r.kind = o ∧ r.result ≠ .notReady) pre opsPre)
    (hmis : re.kind ≠ op) :
    runOps (opsPre ++ op :: ops2) (mkStream k v (pre ++ re :: rs) comps) =
      [.outputMsg journalMismatchResult, .endMsg] ∧
    (runOps (opsPre ++ op :: ops2) (mkStream k v (pre ++ re :: rs) comps)).head? =
      some (.outputMsg journalMismatchResult) := by
  have hstep : runOps (opsPre ++ op :: ops2) (mkStream k v (pre ++ re :: rs) comps) =
      runOpsAux
        (splitReplay (((pre ++ re :: rs).map fun e => .entry e.kind e.result) ++
          (comps.map fun c => .completion c.1 c.2))).2
        (opsPre ++ op :: ops2)
        (splitReplay (((pre ++ re :: rs).map fun e => .entry e.kind e.result) ++
          (comps.map fun c => .completion c.1 c.2))).1
        1 := rfl
  have hmain : runOps (opsPre ++ op :: ops2) (mkStream k v (pre ++ re :: rs) comps) =
      [.outputMsg journalMismatchResult, .endMsg] := by
    rw [hstep, splitReplay_canonical (pre ++ re :: rs) comps]
    exact runOpsAux_mismatch _ hagree re op rs ops2 hmis 1
  exact ⟨hmain, by rw [hmain]; rfl⟩

/-- Witness for C1: the journal holds an InvokeCall entry but the user code
performs a side effect; the first emitted message is the terminal
journal-mismatch failure. -/
theorem replaying_kind_mismatch_is_fatal_witness :
    (runOps [.sideEffect]
        (mkStream 1 "Till" [⟨.invokeCall, .value "FRANCESCO"⟩] [])).head? =
      some (.outputMsg journalMismatchResult) :=
  (replaying_kind_mismatch_is_fatal 1 "Till" [] [] ⟨.invokeCall, .value "FRANCESCO"⟩
    .sideEffect [] [] [] .nil (by decide)).2

/-- When the first `k` attempts fail with retryable errors and attempt `k`
succeeds within the allowed retries, the retry loop journals exactly the
failed-attempt footprints followed by the successful value. -/
theorem runRetryAux_success (fn : Nat → SEAttempt) (s : RetrySettings)
    (msgs : Nat → String) (v : String) :
    ∀ (k a f : Nat), (∀ i, i < k → fn (a + i) = .retryable (msgs (a + i))) →
      fn (a + k) = .ok v → k ≤ f →
      runRetryAux fn s a f = (retryTrace msgs s a k ++ [seEntry (.value v)], .value v) := by
  intro k
  induction k with
  | zero =>
      intro a f h1 h2 _
      simp only [Nat.add_zero] at h2
      unfold runRetryAux
      rw [h2]
      simp [retryTrace]
  | succ k ih =>
      intro a f h1 h2 hf
      have hfa : fn a = .retryable (msgs a) := by
        have := h1 0 (Nat.succ_pos k)
        simpa using this
      match f with
      | 0 => exact absurd hf (by omega)
      | f + 1 =>
          have h1s : ∀ i, i < k → fn (a + 1 + i) = .retryable (msgs (a + 1 + i)) := by
            intro i hi
            have e : a + (i + 1) = a + 1 + i := by omega
            have := h1 (i + 1) (by omega)
            rwa [e] at this
          have h2s : fn (a + 1 + k) = .ok v := by
            have e : a + (k + 1) = a + 1 + k := by omega
            rwa [e] at h2
          unfold runRetryAux
          rw [hfa]
          simp only []
          rw [ih (a + 1) f h1s h2s (by omega)]
          simp [retryTrace]

/-- Every entry of a failed-attempt footprint records either a
non-terminal failure or a sleep: no terminal failure is journaled. -/
theorem retryTrace_nonterminal (msgs : Nat → String) (s : RetrySettings) :
    ∀ k a, ∀ e ∈ retryTrace msgs s a k, isTerminalFailureEntry e = false := by
  intro k
  induction k with
  | zero => intro a e he; simp [retryTrace] at he
  | succ k ih =>
      intro a e he
      simp only [retryTrace, List.mem_cons] at he
      rcases he with h | h | h
      · subst h; rfl
      · subst h; rfl
      · exact ih (a + 1) e h

/-- When every attempt fails with a retryable error, the retry loop
exhausts its fuel and surfaces the terminal failure of the last attempt. -/
theorem runRetryAux_exhausted (fn : Nat → SEAttempt) (s : RetrySettings)
    (msgs : Nat → String) (hall : ∀ i, fn i = .retryable (msgs i)) :
    ∀ f a, (runRetryAux fn s a f).2 = .failure INTERNAL_CODE (msgs (a + f)) true := by
  intro f
  induction f with
  | zero =>
      intro a
      unfold runRetryAux
      rw [hall a]
      simp
  | succ f ih =>
      intro a
      unfold runRetryAux
      rw [hall a]
      have e : a + 1 + f = a + (f + 1) := by omega
      have := ih (a + 1)
      rw [e] at this
      simpa using this

/-- C2: a side effect whose closure throws retryable errors on its first
`k` attempts and succeeds on attempt `k` within the retry policy journals,
for each failed attempt, its failure as non-terminal together with a Sleep
entry scheduling the durable retry; between the entries of consecutive
attempts only Sleep entries appear, the final successful attempt journals
the value, no terminal failure is journaled, and the invocation surfaces
the value.  A retryable failure surfaces as the terminal result only when
the retries are exhausted. -/
theorem side_effect_retry_journals_sleeps (fn : Nat → SEAttempt) (s : RetrySettings)
    (msgs : Nat → String) (v : String) (k : Nat)
    (hk : k < s.maxRetries)
    (hfail : ∀ i, i < k → fn i = .retryable (msgs i))
    (hsucc : fn k = .ok v) :
    runRetry fn s = (retryTrace msgs s 0 k ++ [seEntry (.value v)], .value v) ∧
    (∀ e ∈ (runRetry fn s).1, isTerminalFailureEntry e = false) ∧
    (∀ (fn2 : Nat → SEAttempt) (msgs2 : Nat → String),
      (∀ i, fn2 i = .retryable (msgs2 i)) →
      (runRetry fn2 s).2 = .failure INTERNAL_CODE (msgs2 (s.maxRetries - 1)) true) := by
  have h1 : runRetry fn s = (retryTrace msgs s 0 k ++ [seEntry (.value v)], .value v) := by
    unfold runRetry
    refine runRetryAux_success fn s msgs v k 0 (s.maxRetries - 1) ?_ ?_ (by omega)
    · intro i hi; simpa using hfail i hi
    · simpa using hsucc
  refine ⟨h1, ?_, ?_⟩
  · intro e he
    rw [h1] at he
    simp only [List.mem_append, List.mem_singleton] at he
    rcases he with h | h
    · exact retryTrace_nonterminal msgs s k 0 e h
    · subst h; rfl
  · intro fn2 msgs2 hall
    unfold runRetry
    have := runRetryAux_exhausted fn2 s msgs2 hall (s.maxRetries - 1) 0
    simpa using this

/-- Witness for C2: with the fixed-delay two-attempt policy and a closure
that fails retryably once and then returns the value 1, the invocation
surfaces the value 1. -/
theorem side_effect_retry_journals_sleeps_witness :
    (runRetry retryOnceFn fixedTwoRetries).2 = .value "1" := by
  have h := side_effect_retry_journals_sleeps retryOnceFn fixedTwoRetries
    retryOnceMsgs "1" 1 (by decide) (by decide) (by decide)
  rw [h.1]

/-- Every message the sleeps loop emits is a journal-entry message. -/
theorem sleepsLoop_entries (cs : List Message) :
    ∀ n replay idx em nr, sleepsLoop cs n replay idx = .ok (em, nr) →
      ∀ m ∈ em, isEntryMsg m = true := by
  intro n
  induction n with
  | zero =>
      intro replay idx em nr h m hm
      simp only [sleepsLoop, Except.ok.injEq, Prod.mk.injEq] at h
      obtain ⟨h1, _⟩ := h
      subst h1
      simp at hm
  | succ n ih =>
      intro replay idx em nr h m hm
      match replay with
      | re :: rs =>
          simp only [sleepsLoop] at h
          split at h
          · rcases hrec : sleepsLoop cs n rs (idx + 1) with e | ⟨em2, nr2⟩ <;>
              rw [hrec] at h <;> simp only [Except.map] at h
            · cases h
            · split at h <;> (cases h; exact ih rs (idx + 1) _ _ hrec m hm)
          · cases h
      | [] =>
          simp only [sleepsLoop] at h
          rcases hrec : sleepsLoop cs n [] (idx + 1) with e | ⟨em2, nr2⟩ <;>
            rw [hrec] at h <;> simp only [Except.map] at h
          · cases h
          · cases h
            rcases List.mem_cons.mp hm with h1 | h1
            · subst h1; rfl
            · exact ih [] (idx + 1) em2 _ hrec m h1

/-- A journal-entry message is not a Suspension. -/
theorem entry_not_suspension (m : Message) (h : isEntryMsg m = true) :
    isSuspensionMsg m = false := by
  cases m <;> simp_all [isEntryMsg, isSuspensionMsg]

/-- The sleeps runner in Request-Response mode closes well: either the
journal closes with an Output and End and no Suspension was emitted, or
the handler is blocked and the run ends with a single Suspension over a
nonempty set of indices, all earlier messages being journal entries. -/
theorem runSleeps_rr_good (n k : Nat) (v : String) (replay : List Entry)
    (comps : List (Nat × EntryResult)) :
    goodRREnding (runSleeps .requestResponse n (mkStream k v replay comps)) := by
  have hstep : runSleeps .requestResponse n (mkStream k v replay comps) =
      runSleepsCore
        (splitReplay ((replay.map fun e => .entry e.kind e.result) ++
          (comps.map fun c => .completion c.1 c.2))).2 n
        (splitReplay ((replay.map fun e => .entry e.kind e.result) ++
          (comps.map fun c => .completion c.1 c.2))).1 := rfl
  rw [hstep, splitReplay_canonical replay comps]
  show goodRREnding (runSleepsCore (comps.map fun c => .completion c.1 c.2) n replay)
  unfold runSleepsCore
  rcases hrec : sleepsLoop (comps.map fun c => .completion c.1 c.2) n replay 1
    with e | ⟨em, nr⟩ <;> rw [hrec]
  · exact .inl ⟨[], journalMismatchResult, rfl, by simp⟩
  · cases nr with
    | nil =>
        left
        exact ⟨em, .value "Hello", rfl, fun m hm =>
          entry_not_suspension m (sleepsLoop_entries _ n replay 1 em [] hrec m hm)⟩
    | cons i nr2 =>
        right
        exact ⟨em, i :: nr2, by simp, rfl, fun m hm =>
          sleepsLoop_entries _ n replay 1 em (i :: nr2) hrec m hm⟩

/-- The side-effect greeter in Request-Response mode always closes with an
Output and End (a side effect is completed on append in this mode), and
never emits a Suspension. -/
theorem runSEG_rr_good (fn : SEResult) (k : Nat) (v : String) (replay : List Entry)
    (comps : List (Nat × EntryResult)) :
    goodRREnding (runSEG .requestResponse fn (mkStream k v replay comps)).1 := by
  have hstep : (runSEG .requestResponse fn (mkStream k v replay comps)).1 =
      (runSEGCore
        (splitReplay ((replay.map fun e => .entry e.kind e.result) ++
          (comps.map fun c => .completion c.1 c.2))).2 .requestResponse fn
        (splitReplay ((replay.map fun e => .entry e.kind e.result) ++
          (comps.map fun c => .completion c.1 c.2))).1).1 := rfl
  rw [hstep, splitReplay_canonical replay comps]
  show goodRREnding
    (runSEGCore (comps.map fun c => .completion c.1 c.2) .requestResponse fn replay).1
  match replay with
  | re :: rs =>
      by_cases hk : re.kind = .sideEffect
      · cases hres : re.result with
        | failure c m t =>
            cases t with
            | true =>
                exact .inl ⟨[], .failure c m true,
                  by simp [runSEGCore, hk, hres], by simp⟩
            | false =>
                exact .inl ⟨[], .value ("Hello " ++ seDelivered (.failure c m false)),
                  by simp [runSEGCore, hk, hres], by simp⟩
        | empty =>
            exact .inl ⟨[], .value ("Hello " ++ seDelivered .empty),
              by simp [runSEGCore, hk, hres], by simp⟩
        | value v2 =>
            exact .inl ⟨[], .value ("Hello " ++ seDelivered (.value v2)),
              by simp [runSEGCore, hk, hres], by simp⟩
        | notReady =>
            exact .inl ⟨[], .value ("Hello " ++ seDelivered .notReady),
              by simp [runSEGCore, hk, hres], by simp⟩
        | stateKeys ks =>
            exact .inl ⟨[], .value ("Hello " ++ seDelivered (.stateKeys ks)),
              by simp [runSEGCore, hk, hres], by simp⟩
      · exact .inl ⟨[], journalMismatchResult, by simp [runSEGCore, hk], by simp⟩
  | [] =>
      match fn with
      | .ok v2 =>
          exact .inl ⟨[.entry .sideEffect (.value v2)], .value ("Hello " ++ v2),
            by simp [runSEGCore], by simp [isSuspensionMsg]⟩
      | .terminalErr m =>
          exact .inl ⟨[.entry .sideEffect (.failure INTERNAL_CODE m true)],
            .failure INTERNAL_CODE m true,
            by simp [runSEGCore], by simp [isSuspensionMsg]⟩

/-- C6 amended: in Request-Response mode, an invocation whose handler can
run to completion closes with exactly one Output (an invocation whose side
effect fails terminally closes with the SideEffect failure entry followed
by the Output failure) and End, with no Suspension emitted; an invocation
whose handler is left blocked on NotReady completable entries ends with a
single Suspension over the nonempty set of blocked indices.  The machine
never emits a Suspension while the handler is still runnable. -/
theorem rr_mode_ending_amended :
    (∀ (n k : Nat) (v : String) (replay : List Entry)
        (comps : List (Nat × EntryResult)),
      goodRREnding (runSleeps .requestResponse n (mkStream k v replay comps))) ∧
    (∀ (fn : SEResult) (k : Nat) (v : String) (replay : List Entry)
        (comps : List (Nat × EntryResult)),
      goodRREnding (runSEG .requestResponse fn (mkStream k v replay comps)).1) :=
  ⟨fun n k v replay comps => runSleeps_rr_good n k v replay comps,
   fun fn k v replay comps => runSEG_rr_good fn k v replay comps⟩

/-- C8: GenericHandler.handle returns 404 for a path matching neither the
invoke shape nor the discover shape (once the signature gate passes), 415
for a missing or unsupported content-type header on an invoke path, 401
whenever a configured key set fails to validate the request signature, and
500 with the JSON message body for any failure the core throws during the
invocation. -/
theorem generic_handler_status_codes (ep : EndpointModel) (req : GHRequest) :
    (sigPasses ep req → parseUrlComponents req.url = none →
      (handle ep req).statusCode = 404) ∧
    (∀ c h, sigPasses ep req → parseUrlComponents req.url = some (.invokePath c h) →
      contentTypeBad req.headers = true → (handle ep req).statusCode = 415) ∧
    (ep.keySet = true → ep.validateSignature req.url req.headers ≠ .valid →
      handle ep req = toErrorResponse 401 "Unauthorized") ∧
    (∀ c hdl comp chandler ct b m, sigPasses ep req →
      parseUrlComponents req.url = some (.invokePath c hdl) →
      lookupHeader req.headers "content-type" = some (.str ct) →
      isServiceProtocolVersionSupported ct = true →
      ep.componentByName c = some comp →
      comp.handlerMatching hdl = some chandler →
      req.body = some b →
      chandler.invokeOutcome = .thrown m →
      handle ep req = toErrorResponse 500 m ∧
        (handle ep req).body = .errorJson m) := by
  refine ⟨?_, ?_, ?_, ?_⟩
  · intro hsig hparse
    have hsig2 : validateConnectionSignature ep req.url req.headers = none := hsig
    simp [handle, hsig2, hparse, toErrorResponse]
  · intro c h hsig hparse hct
    have hsig2 : validateConnectionSignature ep req.url req.headers = none := hsig
    unfold contentTypeBad at hct
    rcases hlk : lookupHeader req.headers "content-type" with _ | hv
    · simp [handle, hsig2, hparse, hlk, toErrorResponse]
    · cases hv with
      | str ct =>
          rw [hlk] at hct
          have hf : isServiceProtocolVersionSupported ct = false := by
            simpa using hct
          simp [handle, hsig2, hparse, hlk, hf, toErrorResponse]
      | strs ss => simp [handle, hsig2, hparse, hlk, toErrorResponse]
  · intro hks hsig
    rcases hv : ep.validateSignature req.url req.headers with _ | e | msg
    · exact absurd hv hsig
    · simp [handle, validateConnectionSignature, hks, hv]
    · simp [handle, validateConnectionSignature, hks, hv]
  · intro c hdl comp chandler ct b m hsig hparse hct hsupp hcomp hhdl hbody hout
    have hsig2 : validateConnectionSignature ep req.url req.headers = none := hsig
    constructor <;>
      simp [handle, hsig2, hparse, hct, hsupp, hcomp, hhdl, hbody,
        handleInvoke, hout, toErrorResponse]

/-- Witness for C8: the four status codes at concrete endpoints and
requests. -/
theorem generic_handler_status_codes_witness :
    (handle epPlain reqUnknownPath).statusCode = 404 ∧
    (handle epPlain reqNoContentType).statusCode = 415 ∧
    handle epRejecting reqUnknownPath = toErrorResponse 401 "Unauthorized" ∧
    handle epGreeter reqInvokeGreet = toErrorResponse 500 "boom" := by
  refine ⟨?_, ?_, ?_, ?_⟩
  · exact (generic_handler_status_codes epPlain reqUnknownPath).1 rfl rfl
  · exact (generic_handler_status_codes epPlain reqNoContentType).2.1 "Svc" "Greet"
      rfl rfl rfl
  · exact (generic_handler_status_codes epRejecting reqUnknownPath).2.2.1 rfl (by decide)
  · exact ((generic_handler_status_codes epGreeter reqInvokeGreet).2.2.2 "Svc" "Greet"
      compGreeter throwingHandler "application/vnd.restate.invocation.v1" [0] "boom"
      rfl rfl rfl rfl rfl rfl rfl rfl).1
